import Mathlib

/- Shallow embedding of the FinCalcv2 projection engine
   (src/src/data/LiabilityClasses.js and src/src/core/FinancialEngine.js).
   JavaScript numbers are modelled by exact rationals; integer-valued inputs
   (term lengths, elapsed years, horizon) are modelled by integers. -/

/-- An asset as the engine reads it: only the `type` tag and `value` matter. -/
structure Asset where
  type : String
  value : ℚ
deriving DecidableEq

/-- A liability as the engine and the amortization calculator read it. -/
structure Liability where
  type : String
  principal : ℚ
  rate : ℚ
  termYears : ℤ
  currentBalance : Option ℚ
deriving DecidableEq

/-- A portfolio: the asset and liability lists plus the three cached totals. -/
structure Portfolio where
  assets : List Asset
  liabilities : List Liability
  totalValue : ℚ
  totalLiabilities : ℚ
  netWorth : ℚ
deriving DecidableEq

/-- The three deterministic scenario labels. -/
inductive Scenario where
  | pessimistic
  | base
  | optimistic
deriving DecidableEq

/-- The scenario return-rate table supplied by the caller; the engine reads it
only when building the cache key (field `returnRates` of the scenarios object). -/
structure Scenarios where
  returnRates : List (String × ℚ × ℚ × ℚ)
deriving DecidableEq

/-- Global calculation settings. -/
structure Settings where
  horizonYears : ℤ
  inflation : ℚ
  showRealValues : Bool
deriving DecidableEq

/-- The ambient globals the engine reads: `window.assetClasses` resolved to the
inflation adjustment per asset type and scenario (the optional chain
`assetInfo?.inflationAdjustment?.[scenarioType] || 0` collapses to a total
function with default 0), and whether `window.liabilityClasses` is present. -/
structure Env where
  adj : String → Scenario → ℚ
  liabilityClassesAvailable : Bool

/-- JavaScript `Math.round`: round half toward positive infinity. -/
def jsRound (x : ℚ) : ℤ := ⌊x + 1 / 2⌋

/-- `Math.round(x * 100) / 100`: rounding to 2 decimal places. -/
def round2 (x : ℚ) : ℚ := (jsRound (x * 100) : ℚ) / 100

/-- `LiabilityClasses.calculateMonthlyPayment` (LiabilityClasses.js lines 123-137). -/
def calculateMonthlyPayment (principal annualRate : ℚ) (termYears : ℤ) : ℚ :=
  if principal ≤ 0 ∨ annualRate ≤ 0 ∨ termYears ≤ 0 then 0
  else
    let monthlyRate := annualRate / 100 / 12
    let numPayments := termYears * 12
    let monthlyPayment := principal *
      (monthlyRate * (1 + monthlyRate) ^ numPayments.toNat) /
      ((1 + monthlyRate) ^ numPayments.toNat - 1)
    round2 monthlyPayment

/-- `LiabilityClasses.calculateRemainingBalance` (LiabilityClasses.js lines 145-165). -/
def calculateRemainingBalance (l : Liability) (years : ℤ) : ℚ :=
  if years ≤ 0 then l.principal
  else if l.termYears ≤ years then 0
  else
    let monthlyRate := l.rate / 100 / 12
    let totalPayments := l.termYears * 12
    let paymentsMade := years * 12
    let remainingBalance := l.principal *
      ((1 + monthlyRate) ^ totalPayments.toNat - (1 + monthlyRate) ^ paymentsMade.toNat) /
      ((1 + monthlyRate) ^ totalPayments.toNat - 1)
    max 0 (round2 remainingBalance)

/-- One point of a projection, as assembled per year by the engine loop. -/
structure YearPoint where
  year : ℕ
  nominal : ℚ
  real : ℚ
  breakdown : List (String × ℚ)
  liabilities : ℚ
  netWorth : ℚ
deriving DecidableEq

/-- The keys of a JavaScript object built by insertion, in insertion order:
the distinct elements of `l`, each at its first occurrence. -/
def groupKeys : List String → List String
  | [] => []
  | t :: ts => t :: (groupKeys ts).filter (fun x => x ≠ t)

/-- `FinancialEngine.groupAssetsByType` (FinancialEngine.js lines 109-117):
one group per asset type, keyed in first-occurrence order. -/
def groupAssetsByType (assets : List Asset) : List (String × List Asset) :=
  (groupKeys (assets.map (fun a => a.type))).map
    (fun t => (t, assets.filter (fun a => a.type = t)))

/-- `FinancialEngine.calculateAssetTypeValue` (FinancialEngine.js lines 126-130). -/
def calculateAssetTypeValue (assets : List Asset) (returnRate : ℚ) (years : ℕ) : ℚ :=
  (assets.map (fun a => a.value)).sum * (1 + returnRate / 100) ^ years

/-- `FinancialEngine.calculateInflationAdjustedReturn` (FinancialEngine.js lines 138-140). -/
def calculateInflationAdjustedReturn (inflationRate adjustment : ℚ) : ℚ :=
  inflationRate + adjustment

/-- `FinancialEngine.calculateLiabilitiesValue` (FinancialEngine.js lines 417-430).
The `Option` argument models a possibly missing liabilities array; when the
`window.liabilityClasses` registry is absent each liability contributes its
`currentBalance || 0` instead of an amortized balance. -/
def calculateLiabilitiesValue (env : Env) (liabilities : Option (List Liability))
    (years : ℤ) : ℚ :=
  match liabilities with
  | none => 0
  | some ls =>
    if ls.isEmpty then 0
    else
      ls.foldl (fun total l =>
        if env.liabilityClassesAvailable then total + calculateRemainingBalance l years
        else total + l.currentBalance.getD 0) 0

/-- The body of the per-year loop of `FinancialEngine.calculateScenarioProjection`
(FinancialEngine.js lines 63-99). -/
def scenarioYearPoint (env : Env) (p : Portfolio) (scenarioType : Scenario)
    (st : Settings) (year : ℕ) : YearPoint :=
  let inflationRate := st.inflation / 100
  let breakdown := (groupAssetsByType p.assets).map (fun g =>
    (g.1, calculateAssetTypeValue g.2
      (calculateInflationAdjustedReturn (inflationRate * 100) (env.adj g.1 scenarioType))
      year))
  let nominal := (breakdown.map (fun b => b.2)).sum
  let liabilitiesValue := calculateLiabilitiesValue env (some p.liabilities) (year : ℤ)
  let netWorth := nominal - liabilitiesValue
  let real := netWorth / (1 + inflationRate) ^ year
  ⟨year, nominal, real, breakdown, liabilitiesValue, netWorth⟩

/-- `FinancialEngine.calculateScenarioProjection` (FinancialEngine.js lines 47-102):
one `YearPoint` per year `0 ≤ year ≤ horizonYears`. The `scenarios` argument is
taken but never read, exactly as in the source. -/
def calculateScenarioProjection (env : Env) (p : Portfolio) (scenarios : Scenarios)
    (scenarioType : Scenario) (st : Settings) : List YearPoint :=
  (List.range (st.horizonYears + 1).toNat).map (scenarioYearPoint env p scenarioType st)

/-- The three per-scenario projections the engine returns and caches. -/
structure Projections where
  pessimistic : List YearPoint
  base : List YearPoint
  optimistic : List YearPoint
deriving DecidableEq

/-- The content of the cache key built by `FinancialEngine.getCacheKey`
(FinancialEngine.js lines 294-308): `JSON.stringify` of this data is injective,
so the key is modelled by the data itself. -/
structure CacheKey where
  assets : List (String × ℚ)
  liabilities : List (String × ℚ × ℚ × ℤ)
  scenarios : List (String × ℚ × ℚ × ℚ)
  horizon : ℤ
  inflation : ℚ
deriving DecidableEq

/-- `FinancialEngine.getCacheKey` (FinancialEngine.js lines 294-308). -/
def getCacheKey (p : Portfolio) (sc : Scenarios) (st : Settings) : CacheKey :=
  ⟨p.assets.map (fun a => (a.type, a.value)),
   p.liabilities.map (fun l => (l.type, l.principal, l.rate, l.termYears)),
   sc.returnRates, st.horizonYears, st.inflation⟩

/-- The engine instance state: the memoization cache, most recent entry first. -/
structure Engine where
  cache : List (CacheKey × Projections)
deriving DecidableEq

/-- Lookup in the memoization cache (`Map.has` followed by `Map.get`). -/
def cacheLookup : List (CacheKey × Projections) → CacheKey → Option Projections
  | [], _ => none
  | (k, v) :: rest, key => if k = key then some v else cacheLookup rest key

/-- `FinancialEngine.calculateProjections` (FinancialEngine.js lines 17-37):
returns the cached projections on a key hit, otherwise computes the three
scenario projections, stores them, and returns them with the updated engine. -/
def calculateProjections (env : Env) (eng : Engine) (p : Portfolio) (sc : Scenarios)
    (st : Settings) : Projections × Engine :=
  let cacheKey := getCacheKey p sc st
  match cacheLookup eng.cache cacheKey with
  | some cached => (cached, eng)
  | none =>
    let projections : Projections :=
      ⟨calculateScenarioProjection env p sc Scenario.pessimistic st,
       calculateScenarioProjection env p sc Scenario.base st,
       calculateScenarioProjection env p sc Scenario.optimistic st⟩
    (projections, ⟨(cacheKey, projections) :: eng.cache⟩)

/-- JavaScript indexing `arr[i]` with a possibly negative or out-of-range index. -/
def jsIndex (l : List YearPoint) (i : ℤ) : Option YearPoint :=
  if 0 ≤ i then l.get? i.toNat else none

/-- `FinancialEngine.calculateMaxDrawdown` (FinancialEngine.js lines 196-211). -/
def calculateMaxDrawdown (projections : List YearPoint) : ℚ :=
  (projections.foldl (fun acc yearData =>
    let maxValue := max acc.1 yearData.nominal
    let maxDrawdown :=
      if 0 < maxValue then max acc.2 ((maxValue - yearData.nominal) / maxValue * 100)
      else acc.2
    (maxValue, maxDrawdown)) ((0 : ℚ), (0 : ℚ))).2

/-- The asset risk weight table of `calculateRiskScore`, with the `|| 3` default. -/
def assetRiskWeight (t : String) : ℚ :=
  if t = "cash" then 1
  else if t = "bonds" then 2
  else if t = "realty" then 4
  else if t = "stocks" then 6
  else 3

/-- `FinancialEngine.calculateRiskScore` (FinancialEngine.js lines 219-243).
Note `portfolio.totalValue || 1` maps a zero cached total to 1. -/
def calculateRiskScore (p : Portfolio) (volatility : ℚ) : ℤ :=
  if p.assets.isEmpty then 1
  else
    let totalValue := if p.totalValue = 0 then 1 else p.totalValue
    let weightedRisk :=
      (p.assets.map (fun a => a.value / totalValue * assetRiskWeight a.type)).sum
    let volatilityAdjustment := min (volatility / 20) 2
    min (max (jsRound (weightedRisk + volatilityAdjustment)) 1) 10

/-- The metrics record returned by `calculateMetrics`. -/
structure Metrics where
  currentValue : ℚ
  futureValuePessimistic : ℚ
  futureValueBase : ℚ
  futureValueOptimistic : ℚ
  growthRate : ℝ
  volatility : ℚ
  sharpeRatio : ℝ
  maxDrawdown : ℚ
  riskScore : ℤ

/-- `FinancialEngine.calculateMetrics` (FinancialEngine.js lines 149-189).
The CAGR takes a real `horizonYears`-th root, so `growthRate` lives in `ℝ`. -/
noncomputable def calculateMetrics (p : Portfolio) (proj : Projections)
    (st : Settings) : Metrics :=
  let currentValue := p.totalValue
  let futureValueBase := ((proj.base.getLast?).map (fun yd => yd.nominal)).getD 0
  let growthRate : ℝ :=
    if 0 < currentValue ∧ 0 < st.horizonYears then
      (((futureValueBase / currentValue : ℚ) : ℝ) ^ ((1 : ℝ) / (st.horizonYears : ℝ)) - 1)
        * 100
    else 0
  let finalYear := st.horizonYears
  let pessimisticValue := ((jsIndex proj.pessimistic finalYear).map (fun yd => yd.nominal)).getD 0
  let optimisticValue := ((jsIndex proj.optimistic finalYear).map (fun yd => yd.nominal)).getD 0
  let volatility : ℚ :=
    if 0 < currentValue then (optimisticValue - pessimisticValue) / (2 * currentValue) * 100
    else 0
  let riskFreeRate : ℝ := 4
  let sharpeRatio : ℝ :=
    if 0 < volatility then (growthRate - riskFreeRate) / (volatility : ℝ) else 0
  let maxDrawdown := calculateMaxDrawdown proj.pessimistic
  let riskScore := calculateRiskScore p volatility
  ⟨currentValue, pessimisticValue, futureValueBase, optimisticValue,
   growthRate, volatility, sharpeRatio, maxDrawdown, riskScore⟩

/- Helper lemmas about rounding and the closed amortization form. -/

lemma calculateRemainingBalance_def (l : Liability) (y : ℤ) :
    calculateRemainingBalance l y =
      if y ≤ 0 then l.principal
      else if l.termYears ≤ y then 0
      else max 0 (round2 (l.principal *
        ((1 + l.rate / 100 / 12) ^ (l.termYears * 12).toNat
          - (1 + l.rate / 100 / 12) ^ (y * 12).toNat) /
        ((1 + l.rate / 100 / 12) ^ (l.termYears * 12).toNat - 1))) := rfl

lemma round2_mono {x y : ℚ} (h : x ≤ y) : round2 x ≤ round2 y := by
  unfold round2 jsRound
  have hf : ⌊x * 100 + 1 / 2⌋ ≤ ⌊y * 100 + 1 / 2⌋ := Int.floor_le_floor (by linarith)
  have hq : ((⌊x * 100 + 1 / 2⌋ : ℤ) : ℚ) ≤ ((⌊y * 100 + 1 / 2⌋ : ℤ) : ℚ) := by
    exact_mod_cast hf
  linarith

lemma round2_le_of_cent {P x : ℚ} (hden : (100 * P).den = 1) (hx : x < P) :
    round2 x ≤ P := by
  have hPnum : ((100 * P).num : ℚ) = 100 * P := Rat.coe_int_num_of_den_eq_one hden
  unfold round2 jsRound
  have hfl : ⌊x * 100 + 1 / 2⌋ ≤ (100 * P).num := by
    rw [Int.floor_le_iff]
    push_cast [hPnum]
    linarith
  have hq : ((⌊x * 100 + 1 / 2⌋ : ℤ) : ℚ) ≤ ((100 * P).num : ℚ) := by exact_mod_cast hfl
  rw [hPnum] at hq
  linarith

lemma monthlyRate_pos (l : Liability) (hR : 0 < l.rate) : 0 < l.rate / 100 / 12 :=
  div_pos (div_pos hR (by norm_num)) (by norm_num)

lemma remainingFormula_lt_principal (l : Liability) (hP : 0 < l.principal)
    (hR : 0 < l.rate) {y : ℤ} (h1 : 0 < y) (h2 : y < l.termYears) :
    l.principal * ((1 + l.rate / 100 / 12) ^ (l.termYears * 12).toNat
        - (1 + l.rate / 100 / 12) ^ (y * 12).toNat) /
      ((1 + l.rate / 100 / 12) ^ (l.termYears * 12).toNat - 1) < l.principal := by
  have hr0 : 0 < l.rate / 100 / 12 := monthlyRate_pos l hR
  have h1r : (1 : ℚ) < 1 + l.rate / 100 / 12 := by linarith
  have hm0 : (y * 12).toNat ≠ 0 := by omega
  have hmT : (y * 12).toNat < (l.termYears * 12).toNat := by omega
  have hB : 1 < (1 + l.rate / 100 / 12) ^ (y * 12).toNat := one_lt_pow₀ h1r hm0
  have hBA : (1 + l.rate / 100 / 12) ^ (y * 12).toNat
      < (1 + l.rate / 100 / 12) ^ (l.termYears * 12).toNat := pow_lt_pow_right₀ h1r hmT
  have hden : 0 < (1 + l.rate / 100 / 12) ^ (l.termYears * 12).toNat - 1 := by linarith
  rw [mul_div_assoc]
  have hratio : ((1 + l.rate / 100 / 12) ^ (l.termYears * 12).toNat
      - (1 + l.rate / 100 / 12) ^ (y * 12).toNat) /
      ((1 + l.rate / 100 / 12) ^ (l.termYears * 12).toNat - 1) < 1 := by
    rw [div_lt_one hden]
    linarith
  calc l.principal * (((1 + l.rate / 100 / 12) ^ (l.termYears * 12).toNat
      - (1 + l.rate / 100 / 12) ^ (y * 12).toNat) /
      ((1 + l.rate / 100 / 12) ^ (l.termYears * 12).toNat - 1))
      < l.principal * 1 := mul_lt_mul_of_pos_left hratio hP
    _ = l.principal := mul_one _

lemma remainingFormula_antitone (l : Liability) (hP : 0 < l.principal)
    (hR : 0 < l.rate) {y1 y2 : ℤ} (h1 : 0 < y1) (h12 : y1 ≤ y2) (h2 : y2 < l.termYears) :
    l.principal * ((1 + l.rate / 100 / 12) ^ (l.termYears * 12).toNat
        - (1 + l.rate / 100 / 12) ^ (y2 * 12).toNat) /
      ((1 + l.rate / 100 / 12) ^ (l.termYears * 12).toNat - 1) ≤
    l.principal * ((1 + l.rate / 100 / 12) ^ (l.termYears * 12).toNat
        - (1 + l.rate / 100 / 12) ^ (y1 * 12).toNat) /
      ((1 + l.rate / 100 / 12) ^ (l.termYears * 12).toNat - 1) := by
  have hr0 : 0 < l.rate / 100 / 12 := monthlyRate_pos l hR
  have h1r : (1 : ℚ) < 1 + l.rate / 100 / 12 := by linarith
  have hm0 : ((y2 * 12).toNat : ℕ) ≠ 0 := by omega
  have hB : 1 < (1 + l.rate / 100 / 12) ^ (y2 * 12).toNat := one_lt_pow₀ h1r hm0
  have hBA : (1 + l.rate / 100 / 12) ^ (y2 * 12).toNat
      < (1 + l.rate / 100 / 12) ^ (l.termYears * 12).toNat :=
    pow_lt_pow_right₀ h1r (by omega)
  have hden : 0 < (1 + l.rate / 100 / 12) ^ (l.termYears * 12).toNat - 1 := by linarith
  have h12p : (1 + l.rate / 100 / 12) ^ (y1 * 12).toNat
      ≤ (1 + l.rate / 100 / 12) ^ (y2 * 12).toNat := pow_le_pow_right₀ h1r.le (by omega)
  rw [mul_div_assoc, mul_div_assoc]
  apply mul_le_mul_of_nonneg_left _ hP.le
  apply (div_le_div_iff_of_pos_right hden).mpr
  linarith

lemma remaining_bounds (l : Liability) (hP : 0 < l.principal) (hR : 0 < l.rate)
    (hCent : (100 * l.principal).den = 1) (y : ℤ) (hy : 0 ≤ y) :
    0 ≤ calculateRemainingBalance l y ∧ calculateRemainingBalance l y ≤ l.principal := by
  by_cases hy0 : y ≤ 0
  · rw [calculateRemainingBalance_def, if_pos hy0]
    exact ⟨hP.le, le_rfl⟩
  · push_neg at hy0
    by_cases hT2 : l.termYears ≤ y
    · rw [calculateRemainingBalance_def, if_neg (by omega), if_pos hT2]
      exact ⟨le_rfl, hP.le⟩
    · push_neg at hT2
      rw [calculateRemainingBalance_def, if_neg (by omega), if_neg (by omega)]
      refine ⟨le_max_left 0 _, max_le hP.le ?_⟩
      exact round2_le_of_cent hCent (remainingFormula_lt_principal l hP hR hy0 hT2)

lemma remaining_antitone (l : Liability) (hP : 0 < l.principal) (hR : 0 < l.rate)
    (hCent : (100 * l.principal).den = 1) {y1 y2 : ℤ} (hy1 : 0 ≤ y1) (h12 : y1 ≤ y2) :
    calculateRemainingBalance l y2 ≤ calculateRemainingBalance l y1 := by
  by_cases hy10 : y1 ≤ 0
  · rw [calculateRemainingBalance_def l y1, if_pos hy10]
    exact (remaining_bounds l hP hR hCent y2 (by omega)).2
  · push_neg at hy10
    by_cases hT2 : l.termYears ≤ y2
    · rw [calculateRemainingBalance_def l y2, if_neg (by omega), if_pos hT2]
      exact (remaining_bounds l hP hR hCent y1 (by omega)).1
    · push_neg at hT2
      rw [calculateRemainingBalance_def l y1, if_neg (by omega), if_neg (by omega),
          calculateRemainingBalance_def l y2, if_neg (by omega), if_neg (by omega)]
      exact max_le_max le_rfl
        (round2_mono (remainingFormula_antitone l hP hR hy10 h12 hT2))

/- Concrete liabilities used by the theorems below. -/

/-- The mortgage of the concrete scenario of the spec: principal 1000000,
rate 8.5 percent, term 20 years. -/
def mortgageExample : Liability := ⟨"mortgage", 1000000, 17 / 2, 20, some 1000000⟩

/-- A valid liability with a sub-cent principal of 0.006. -/
def tinyLoan : Liability := ⟨"consumer", 3 / 500, 10, 10, none⟩

lemma mortgage_balance_ten :
    calculateRemainingBalance mortgageExample 10 = 69993823 / 100 := by
  rw [calculateRemainingBalance_def, if_neg (by decide), if_neg (by decide)]
  rw [show mortgageExample.principal = 1000000 from rfl,
      show mortgageExample.rate = 17 / 2 from rfl,
      show mortgageExample.termYears = 20 from rfl,
      show ((20 : ℤ) * 12).toNat = 240 from rfl, show ((10 : ℤ) * 12).toNat = 120 from rfl]
  have h : round2 (1000000 * ((1 + 17 / 2 / 100 / 12) ^ 240 - (1 + 17 / 2 / 100 / 12) ^ 120) /
      ((1 + 17 / 2 / 100 / 12) ^ 240 - 1)) = 69993823 / 100 := by
    norm_num [round2, jsRound]
  rw [h, max_eq_right (by norm_num)]

lemma mortgage_balance_five :
    calculateRemainingBalance mortgageExample 5 = 88127183 / 100 := by
  rw [calculateRemainingBalance_def, if_neg (by decide), if_neg (by decide)]
  rw [show mortgageExample.principal = 1000000 from rfl,
      show mortgageExample.rate = 17 / 2 from rfl,
      show mortgageExample.termYears = 20 from rfl,
      show ((20 : ℤ) * 12).toNat = 240 from rfl, show ((5 : ℤ) * 12).toNat = 60 from rfl]
  have h : round2 (1000000 * ((1 + 17 / 2 / 100 / 12) ^ 240 - (1 + 17 / 2 / 100 / 12) ^ 60) /
      ((1 + 17 / 2 / 100 / 12) ^ 240 - 1)) = 88127183 / 100 := by
    norm_num [round2, jsRound]
  rw [h, max_eq_right (by norm_num)]

lemma tinyLoan_balance_one : calculateRemainingBalance tinyLoan 1 = 1 / 100 := by
  rw [calculateRemainingBalance_def, if_neg (by decide), if_neg (by decide)]
  rw [show tinyLoan.principal = 3 / 500 from rfl, show tinyLoan.rate = 10 from rfl,
      show tinyLoan.termYears = 10 from rfl,
      show ((10 : ℤ) * 12).toNat = 120 from rfl, show ((1 : ℤ) * 12).toNat = 12 from rfl]
  have h : round2 (3 / 500 * ((1 + 10 / 100 / 12) ^ 120 - (1 + 10 / 100 / 12) ^ 12) /
      ((1 + 10 / 100 / 12) ^ 120 - 1)) = 1 / 100 := by
    norm_num [round2, jsRound]
  rw [h, max_eq_right (by norm_num)]

/-- C1: for every liability and elapsed time, `calculateRemainingBalance` returns
the principal when `elapsedYears ≤ 0`, otherwise 0 when `elapsedYears ≥ termYears`,
and otherwise the closed amortization form with `r = rate/100/12`,
`total = termYears*12`, `made = elapsedYears*12`, floored at 0 and rounded to
2 decimal places. -/
theorem calculateRemainingBalance_spec (l : Liability) (y : ℤ) :
    (y ≤ 0 → calculateRemainingBalance l y = l.principal) ∧
    (0 < y → l.termYears ≤ y → calculateRemainingBalance l y = 0) ∧
    (0 < y → y < l.termYears → calculateRemainingBalance l y =
      max 0 (round2 (l.principal *
        ((1 + l.rate / 100 / 12) ^ (l.termYears * 12).toNat
          - (1 + l.rate / 100 / 12) ^ (y * 12).toNat) /
        ((1 + l.rate / 100 / 12) ^ (l.termYears * 12).toNat - 1)))) := by
  refine ⟨fun h => ?_, fun h1 h2 => ?_, fun h1 h2 => ?_⟩
  · rw [calculateRemainingBalance_def, if_pos h]
  · rw [calculateRemainingBalance_def, if_neg (by omega), if_pos h2]
  · rw [calculateRemainingBalance_def, if_neg (by omega), if_neg (by omega)]

/-- Witness for C1: the mortgage example fully amortizes after its 20-year term. -/
theorem calculateRemainingBalance_spec_witness :
    (0 : ℤ) < 25 ∧ mortgageExample.termYears ≤ 25 ∧
      calculateRemainingBalance mortgageExample 25 = 0 :=
  ⟨by decide, by decide,
    (calculateRemainingBalance_spec mortgageExample 25).2.1 (by decide) (by decide)⟩

/-- C7 counterexample: at principal 1000000, rate 8.5 percent, term 20 years the
monthly payment rounds to 8678.23, not to the 8678.31 the claim states. -/
theorem calculateMonthlyPayment_concrete_counterexample :
    calculateMonthlyPayment 1000000 (17 / 2) 20 = 867823 / 100 ∧
      (867823 / 100 : ℚ) ≠ 867831 / 100 := by
  constructor
  · rw [calculateMonthlyPayment, if_neg (by norm_num)]
    norm_num [round2, jsRound, show Int.toNat 240 = 240 from rfl]
  · norm_num

/-- C7 (amended): `calculateMonthlyPayment` returns 0 on a non-positive principal,
rate or term, and otherwise the annuity formula `P·r·(1+r)^n/((1+r)^n−1)` with
`r = annualRatePercent/100/12`, `n = termYears·12`, rounded to 2 decimals; for
principal 1000000, rate 8.5 percent, term 20 years the result is 8678.23. -/
theorem calculateMonthlyPayment_spec (principal annualRate : ℚ) (termYears : ℤ) :
    ((principal ≤ 0 ∨ annualRate ≤ 0 ∨ termYears ≤ 0) →
      calculateMonthlyPayment principal annualRate termYears = 0) ∧
    (0 < principal → 0 < annualRate → 0 < termYears →
      calculateMonthlyPayment principal annualRate termYears =
        round2 (principal * (annualRate / 100 / 12 *
            (1 + annualRate / 100 / 12) ^ (termYears * 12).toNat) /
          ((1 + annualRate / 100 / 12) ^ (termYears * 12).toNat - 1))) ∧
    calculateMonthlyPayment 1000000 (17 / 2) 20 = 867823 / 100 := by
  refine ⟨fun h => ?_, fun h1 h2 h3 => ?_, ?_⟩
  · rw [calculateMonthlyPayment, if_pos h]
  · rw [calculateMonthlyPayment, if_neg (by push_neg; exact ⟨h1, h2, h3⟩)]
  · rw [calculateMonthlyPayment, if_neg (by norm_num)]
    norm_num [round2, jsRound, show Int.toNat 240 = 240 from rfl]

/-- Witness for C7 at a degenerate input: non-positive principal gives payment 0. -/
theorem calculateMonthlyPayment_spec_witness :
    ((-5 : ℚ) ≤ 0 ∨ (12 : ℚ) ≤ 0 ∨ (5 : ℤ) ≤ 0) ∧
      calculateMonthlyPayment (-5) 12 5 = 0 :=
  ⟨Or.inl (by norm_num),
    (calculateMonthlyPayment_spec (-5) 12 5).1 (Or.inl (by norm_num))⟩

/-- C8 counterexample: `tinyLoan` is valid (positive principal, rate and term) yet
after one year the rounded balance 0.01 exceeds the principal 0.006, and the
balance trajectory increases from year 0 to year 1. -/
theorem calculateRemainingBalance_exceeds_principal :
    0 < tinyLoan.principal ∧ 0 < tinyLoan.rate ∧ 0 < tinyLoan.termYears ∧
    tinyLoan.principal < calculateRemainingBalance tinyLoan 1 ∧
    calculateRemainingBalance tinyLoan 0 < calculateRemainingBalance tinyLoan 1 := by
  refine ⟨by norm_num [tinyLoan], by norm_num [tinyLoan], by decide, ?_, ?_⟩
  · rw [tinyLoan_balance_one]
    norm_num [tinyLoan]
  · rw [tinyLoan_balance_one, calculateRemainingBalance_def, if_pos (by decide)]
    norm_num [tinyLoan]

/-- C8 (amended): for every valid liability whose principal is a whole number of
cents, the remaining balance stays within `[0, principal]` for every elapsed
time `y ≥ 0` and is non-increasing in `y`; concretely, the mortgage example has
`0 < balance(10) < 1000000` and `balance(10) < balance(5)`. -/
theorem calculateRemainingBalance_range_monotone (l : Liability)
    (hP : 0 < l.principal) (hR : 0 < l.rate) (hT : 0 < l.termYears)
    (hCent : (100 * l.principal).den = 1) :
    (∀ y : ℤ, 0 ≤ y →
      0 ≤ calculateRemainingBalance l y ∧ calculateRemainingBalance l y ≤ l.principal) ∧
    (∀ y1 y2 : ℤ, 0 ≤ y1 → y1 ≤ y2 →
      calculateRemainingBalance l y2 ≤ calculateRemainingBalance l y1) ∧
    0 < calculateRemainingBalance mortgageExample 10 ∧
    calculateRemainingBalance mortgageExample 10 < 1000000 ∧
    calculateRemainingBalance mortgageExample 10 < calculateRemainingBalance mortgageExample 5 := by
  refine ⟨fun y hy => remaining_bounds l hP hR hCent y hy,
    fun y1 y2 hy1 h12 => remaining_antitone l hP hR hCent hy1 h12, ?_, ?_, ?_⟩
  · rw [mortgage_balance_ten]; norm_num
  · rw [mortgage_balance_ten]; norm_num
  · rw [mortgage_balance_ten, mortgage_balance_five]; norm_num

/-- Witness for C8 at the mortgage example. -/
theorem calculateRemainingBalance_range_monotone_witness :
    0 < mortgageExample.principal ∧ 0 < mortgageExample.rate ∧
    0 < mortgageExample.termYears ∧ (100 * mortgageExample.principal).den = 1 ∧
    calculateRemainingBalance mortgageExample 12 ≤ calculateRemainingBalance mortgageExample 7 :=
  ⟨by norm_num [mortgageExample], by norm_num [mortgageExample], by decide,
    by norm_num [mortgageExample],
    (calculateRemainingBalance_range_monotone mortgageExample
      (by norm_num [mortgageExample]) (by norm_num [mortgageExample]) (by decide)
      (by norm_num [mortgageExample])).2.1 7 12 (by decide) (by decide)⟩

/- Grouping lemmas: summing group totals over the first-occurrence keys recovers
the plain sum over all assets. -/

lemma mem_groupKeys {x : String} : ∀ {l : List String}, x ∈ groupKeys l ↔ x ∈ l := by
  intro l
  induction l with
  | nil => simp [groupKeys]
  | cons t ts ih =>
    simp only [groupKeys, List.mem_cons, List.mem_filter]
    constructor
    · rintro (rfl | ⟨hx, _⟩)
      · exact Or.inl rfl
      · exact Or.inr (ih.mp hx)
    · rintro (rfl | hx)
      · exact Or.inl rfl
      · by_cases hxt : x = t
        · exact Or.inl hxt
        · exact Or.inr ⟨ih.mpr hx, by simpa using hxt⟩

lemma groupKeys_nodup : ∀ l : List String, (groupKeys l).Nodup := by
  intro l
  induction l with
  | nil => simp [groupKeys]
  | cons t ts ih =>
    simp only [groupKeys]
    refine List.Nodup.cons ?_ (List.Nodup.filter _ ih)
    intro hmem
    have := (List.mem_filter.mp hmem).2
    simp at this

lemma sum_map_filter_split (g : Asset → ℚ) (q : Asset → Bool) :
    ∀ l : List Asset,
      ((l.filter q).map g).sum + ((l.filter (fun a => !(q a))).map g).sum = (l.map g).sum := by
  intro l
  induction l with
  | nil => simp
  | cons a as ih =>
    cases hqa : q a with
    | true => simp [List.filter_cons, hqa]; linarith
    | false => simp [List.filter_cons, hqa]; linarith

lemma sum_over_keys (f : Asset → ℚ) :
    ∀ keys : List String, keys.Nodup → ∀ assets : List Asset,
      (∀ a ∈ assets, a.type ∈ keys) →
      (keys.map (fun t => ((assets.filter (fun a => a.type = t)).map f).sum)).sum
        = (assets.map f).sum := by
  intro keys
  induction keys with
  | nil =>
    intro _ assets hcov
    cases assets with
    | nil => simp
    | cons a as => exact absurd (hcov a (by simp)) (by simp)
  | cons t ks ih =>
    intro hnd assets hcov
    obtain ⟨hnotmem, hndks⟩ := List.nodup_cons.mp hnd
    have htail : ∀ u ∈ ks,
        ((assets.filter (fun a => a.type = u)).map f).sum =
        (((assets.filter (fun a => !(decide (a.type = t)))).filter
            (fun a => a.type = u)).map f).sum := by
      intro u hu
      have hut : u ≠ t := fun h => hnotmem (h ▸ hu)
      congr 1
      rw [List.filter_filter]
      congr 1
      apply List.filter_congr
      intro a _
      by_cases hat : a.type = u
      · simp [hat, hut]
      · simp [hat]
    have hcov2 : ∀ a ∈ assets.filter (fun a => !(decide (a.type = t))), a.type ∈ ks := by
      intro a ha
      obtain ⟨hmem, hne⟩ := List.mem_filter.mp ha
      have := hcov a hmem
      simp only [List.mem_cons] at this
      rcases this with h | h
      · simp [h] at hne
      · exact h
    calc (List.map (fun u => ((assets.filter (fun a => a.type = u)).map f).sum) (t :: ks)).sum
        = ((assets.filter (fun a => a.type = t)).map f).sum +
          (ks.map (fun u => ((assets.filter (fun a => a.type = u)).map f).sum)).sum := by
          simp
      _ = ((assets.filter (fun a => a.type = t)).map f).sum +
          (ks.map (fun u => (((assets.filter (fun a => !(decide (a.type = t)))).filter
            (fun a => a.type = u)).map f).sum)).sum := by
          rw [List.map_congr_left htail]
      _ = ((assets.filter (fun a => a.type = t)).map f).sum +
          ((assets.filter (fun a => !(decide (a.type = t)))).map f).sum := by
          rw [ih hndks _ hcov2]
      _ = (assets.map f).sum := sum_map_filter_split f (fun a => decide (a.type = t)) assets

lemma groupAssetsByType_sum (f : Asset → ℚ) (assets : List Asset) :
    ((groupAssetsByType assets).map (fun g => (g.2.map f).sum)).sum = (assets.map f).sum := by
  unfold groupAssetsByType
  rw [List.map_map]
  exact sum_over_keys f _ (groupKeys_nodup _) assets
    (fun a ha => mem_groupKeys.mpr (List.mem_map_of_mem _ ha))

/- Field computations for one projection year. -/

lemma scenarioYearPoint_nominal (env : Env) (p : Portfolio) (s : Scenario)
    (st : Settings) (year : ℕ) :
    (scenarioYearPoint env p s st year).nominal =
      ((groupAssetsByType p.assets).map (fun g =>
        (g.2.map (fun a => a.value)).sum *
          (1 + (st.inflation / 100 * 100 + env.adj g.1 s) / 100) ^ year)).sum := by
  simp only [scenarioYearPoint, calculateAssetTypeValue, calculateInflationAdjustedReturn]
  rw [List.map_map]
  rfl

lemma scenarioYearPoint_liabilities (env : Env) (p : Portfolio) (s : Scenario)
    (st : Settings) (year : ℕ) :
    (scenarioYearPoint env p s st year).liabilities =
      calculateLiabilitiesValue env (some p.liabilities) (year : ℤ) := rfl

lemma scenarioYearPoint_nominal_zero (env : Env) (p : Portfolio) (s : Scenario)
    (st : Settings) :
    (scenarioYearPoint env p s st 0).nominal = (p.assets.map (fun a => a.value)).sum := by
  rw [scenarioYearPoint_nominal]
  have h : ∀ g ∈ groupAssetsByType p.assets,
      (g.2.map (fun a => a.value)).sum *
        (1 + (st.inflation / 100 * 100 + env.adj g.1 s) / 100) ^ (0 : ℕ) =
      (g.2.map (fun a => a.value)).sum := by
    intro g _
    rw [pow_zero, mul_one]
  rw [List.map_congr_left h]
  exact groupAssetsByType_sum (fun a => a.value) p.assets

lemma scenarioYearPoint_real_zero (env : Env) (p : Portfolio) (s : Scenario)
    (st : Settings) :
    (scenarioYearPoint env p s st 0).real = (scenarioYearPoint env p s st 0).netWorth := by
  simp [scenarioYearPoint]

/-- C3: every scenario projection has length `horizonYears + 1`, and its year-0
entry carries `nominal` equal to the sum of the asset values (the quantity the
claim calls `portfolio.totalValue`) and `real` equal to the `netWorth` of that
same entry — no growth or inflation discount at year 0. -/
theorem projection_length_and_year_zero (env : Env) (p : Portfolio) (sc : Scenarios)
    (st : Settings) (s : Scenario) (h : 0 ≤ st.horizonYears) :
    (calculateScenarioProjection env p sc s st).length = st.horizonYears.toNat + 1 ∧
    ∃ yp : YearPoint, (calculateScenarioProjection env p sc s st).get? 0 = some yp ∧
      yp.nominal = (p.assets.map (fun a => a.value)).sum ∧ yp.real = yp.netWorth := by
  constructor
  · simp only [calculateScenarioProjection, List.length_map, List.length_range]
    omega
  · refine ⟨scenarioYearPoint env p s st 0, ?_, scenarioYearPoint_nominal_zero env p s st,
      scenarioYearPoint_real_zero env p s st⟩
    simp only [calculateScenarioProjection]
    rw [List.get?_map, List.get?_range (by omega : 0 < (st.horizonYears + 1).toNat)]
    rfl

lemma scenarioYearPoint_liabilities_inv (env : Env) (p : Portfolio)
    (s1 s2 : Scenario) (st : Settings) (n : ℕ) :
    (scenarioYearPoint env p s1 st n).liabilities =
    (scenarioYearPoint env p s2 st n).liabilities := rfl

/-- C4: the `liabilities` component of every projection year is the same across
the three scenarios — the liability trajectory does not depend on the label. -/
theorem liabilities_scenario_invariant (env : Env) (p : Portfolio) (sc : Scenarios)
    (st : Settings) (s1 s2 : Scenario) (y : ℕ) :
    ((calculateScenarioProjection env p sc s1 st).get? y).map (fun yp => yp.liabilities) =
    ((calculateScenarioProjection env p sc s2 st).get? y).map (fun yp => yp.liabilities) := by
  simp only [calculateScenarioProjection]
  rw [List.get?_map, List.get?_map]
  cases (List.range (st.horizonYears + 1).toNat).get? y with
  | none => rfl
  | some n =>
    simp only [Option.map_some']
    exact congrArg some (scenarioYearPoint_liabilities_inv env p s1 s2 st n)

lemma groupKeys_single {t0 : String} :
    ∀ l : List String, (∀ x ∈ l, x = t0) → l ≠ [] → groupKeys l = [t0] := by
  intro l
  induction l with
  | nil => intro _ h; exact absurd rfl h
  | cons t ts _ =>
    intro hall _
    have ht : t = t0 := hall t (by simp)
    subst ht
    simp only [groupKeys, List.cons.injEq, true_and]
    have hsub : ∀ x ∈ groupKeys ts, x = t := fun x hx =>
      hall x (by simp [mem_groupKeys.mp hx])
    rw [List.filter_eq_nil_iff]
    intro a ha
    simp [hsub a ha]

/-- C2: for a portfolio whose assets all share one type and with no liabilities,
the nominal value the engine reports at year `y` is the total asset value
compounded annually at the return rate `r = inflation + adjustment` the engine
derives for that type and scenario, for every `y` up to the horizon. -/
theorem singleType_nominal_growth (env : Env) (p : Portfolio) (sc : Scenarios)
    (st : Settings) (s : Scenario) (t0 : String)
    (hAll : ∀ a ∈ p.assets, a.type = t0) (hL : p.liabilities = [])
    (y : ℕ) (hy : (y : ℤ) ≤ st.horizonYears) :
    ((calculateScenarioProjection env p sc s st).get? y).map (fun yp => yp.nominal) =
      some ((p.assets.map (fun a => a.value)).sum *
        (1 + (st.inflation + env.adj t0 s) / 100) ^ y) := by
  have hn : y < (st.horizonYears + 1).toNat := by omega
  simp only [calculateScenarioProjection]
  rw [List.get?_map, List.get?_range hn]
  simp only [Option.map_some']
  congr 1
  rw [scenarioYearPoint_nominal]
  cases hpa : p.assets with
  | nil => simp [groupAssetsByType, groupKeys, hpa]
  | cons a as =>
    have hne : p.assets.map (fun a => a.type) ≠ [] := by simp [hpa]
    have hall2 : ∀ x ∈ p.assets.map (fun a => a.type), x = t0 := by
      intro x hx
      obtain ⟨b, hb, rfl⟩ := List.mem_map.mp hx
      exact hAll b hb
    have hfil : p.assets.filter (fun a => a.type = t0) = p.assets := by
      rw [List.filter_eq_self]
      intro b hb
      simp [hAll b hb]
    rw [← hpa, groupAssetsByType, groupKeys_single _ hall2 hne]
    simp only [List.map_cons, List.map_nil, List.sum_cons, List.sum_nil, add_zero]
    rw [hfil, div_mul_cancel₀ _ (by norm_num : (100 : ℚ) ≠ 0)]

/- Cache behaviour and independence from the cached portfolio totals. -/

lemma cacheLookup_cons_self (k : CacheKey) (v : Projections)
    (rest : List (CacheKey × Projections)) :
    cacheLookup ((k, v) :: rest) k = some v := by
  simp [cacheLookup]

/-- C5 (amended): `calculateProjections` never reads the cached fields
`totalValue`, `totalLiabilities`, `netWorth` — two portfolios with the same
asset and liability lists produce identical projections and cache state.
(`calculateMetrics` and `calculateRiskScore`, by contrast, do read
`portfolio.totalValue`; see the counterexample.) -/
theorem calculateProjections_ignores_cached_totals (env : Env) (eng : Engine)
    (sc : Scenarios) (st : Settings) (p1 p2 : Portfolio)
    (hA : p1.assets = p2.assets) (hL : p1.liabilities = p2.liabilities) :
    calculateProjections env eng p1 sc st = calculateProjections env eng p2 sc st := by
  obtain ⟨a1, l1, tv1, tl1, nw1⟩ := p1
  obtain ⟨a2, l2, tv2, tl2, nw2⟩ := p2
  simp only at hA hL
  subst hA
  subst hL
  rfl

/-- The portfolio pair of the C5 counterexample: same single stocks asset, but
cached `totalValue` 100 versus 200. -/
def portfolioA : Portfolio := ⟨[⟨"stocks", 100⟩], [], 100, 0, 100⟩

/-- See `portfolioA`: identical lists, different cached totals. -/
def portfolioB : Portfolio := ⟨[⟨"stocks", 100⟩], [], 200, 0, 200⟩

/-- C5 counterexample: `calculateRiskScore` reads `portfolio.totalValue`, so the
two portfolios that differ only in cached totals get risk scores 6 and 3. -/
theorem calculateRiskScore_reads_cached_total :
    portfolioA.assets = portfolioB.assets ∧
    portfolioA.liabilities = portfolioB.liabilities ∧
    calculateRiskScore portfolioA 0 = 6 ∧ calculateRiskScore portfolioB 0 = 3 := by
  refine ⟨rfl, rfl, ?_, ?_⟩
  · rw [calculateRiskScore, if_neg (by simp [portfolioA])]
    rw [show portfolioA.totalValue = 100 from rfl]
    rw [if_neg (by norm_num)]
    rw [show portfolioA.assets = [⟨"stocks", 100⟩] from rfl]
    simp only [List.map_cons, List.map_nil, List.sum_cons, List.sum_nil]
    rw [show assetRiskWeight "stocks" = 6 from rfl]
    norm_num [jsRound]
  · rw [calculateRiskScore, if_neg (by simp [portfolioB])]
    rw [show portfolioB.totalValue = 200 from rfl]
    rw [if_neg (by norm_num)]
    rw [show portfolioB.assets = [⟨"stocks", 100⟩] from rfl]
    simp only [List.map_cons, List.map_nil, List.sum_cons, List.sum_nil]
    rw [show assetRiskWeight "stocks" = 6 from rfl]
    norm_num [jsRound]

/-- Witness for C5 at the concrete portfolio pair. -/
theorem calculateProjections_ignores_cached_totals_witness :
    portfolioA.assets = portfolioB.assets ∧
    calculateProjections ⟨fun _ _ => 0, true⟩ ⟨[]⟩ portfolioA ⟨[]⟩ ⟨2, 4, false⟩ =
      calculateProjections ⟨fun _ _ => 0, true⟩ ⟨[]⟩ portfolioB ⟨[]⟩ ⟨2, 4, false⟩ :=
  ⟨rfl, calculateProjections_ignores_cached_totals ⟨fun _ _ => 0, true⟩ ⟨[]⟩ ⟨[]⟩
    ⟨2, 4, false⟩ portfolioA portfolioB rfl rfl⟩

/-- C6: a second `calculateProjections` call whose portfolio projects to the same
(type, value) and (type, principal, rate, termYears) lists, with the same
return-rate table, horizon and inflation, hits the cache: it returns exactly the
projections object stored by the first call and leaves the engine unchanged. -/
theorem calculateProjections_second_call_cached (env : Env) (eng : Engine)
    (p1 p2 : Portfolio) (sc1 sc2 : Scenarios) (st1 st2 : Settings)
    (hA : p1.assets.map (fun a => (a.type, a.value)) =
          p2.assets.map (fun a => (a.type, a.value)))
    (hL : p1.liabilities.map (fun l => (l.type, l.principal, l.rate, l.termYears)) =
          p2.liabilities.map (fun l => (l.type, l.principal, l.rate, l.termYears)))
    (hS : sc1.returnRates = sc2.returnRates)
    (hH : st1.horizonYears = st2.horizonYears)
    (hI : st1.inflation = st2.inflation) :
    calculateProjections env (calculateProjections env eng p1 sc1 st1).2 p2 sc2 st2 =
      calculateProjections env eng p1 sc1 st1 := by
  have hkey : getCacheKey p2 sc2 st2 = getCacheKey p1 sc1 st1 := by
    simp only [getCacheKey]
    rw [hA, hL, hS, hH, hI]
  simp only [calculateProjections, hkey]
  cases hc : cacheLookup eng.cache (getCacheKey p1 sc1 st1) with
  | some r => simp [hc]
  | none => simp [hc, cacheLookup_cons_self]

/-- The environment used by the concrete witnesses. -/
def envW : Env := ⟨fun _ _ => 6, true⟩

/-- A small concrete portfolio for the witnesses. -/
def portfolioW : Portfolio := ⟨[⟨"stocks", 100000⟩], [], 100000, 0, 100000⟩

/-- A small concrete return-rate table for the witnesses. -/
def scenariosW : Scenarios := ⟨[("stocks", 5, 12, 20)]⟩

/-- Concrete settings for the witnesses: horizon 1 year, inflation 6 percent. -/
def settingsW : Settings := ⟨1, 6, false⟩

/-- Witness for C6: calling twice on the same concrete inputs returns the first
result pair unchanged. -/
theorem calculateProjections_second_call_cached_witness :
    portfolioW.assets.map (fun a => (a.type, a.value)) =
      portfolioW.assets.map (fun a => (a.type, a.value)) ∧
    calculateProjections envW (calculateProjections envW ⟨[]⟩ portfolioW scenariosW settingsW).2
        portfolioW scenariosW settingsW =
      calculateProjections envW ⟨[]⟩ portfolioW scenariosW settingsW :=
  ⟨rfl, calculateProjections_second_call_cached envW ⟨[]⟩ portfolioW portfolioW
    scenariosW scenariosW settingsW settingsW rfl rfl rfl rfl rfl⟩

/-- Witness for C2: a single stocks asset worth 100000, engine return rate
6 + 6 = 12 percent, horizon 1 year: the year-1 nominal value is 112000. -/
theorem singleType_nominal_growth_witness :
    (∀ a ∈ portfolioW.assets, a.type = "stocks") ∧ portfolioW.liabilities = [] ∧
    ((calculateScenarioProjection envW portfolioW scenariosW Scenario.base settingsW).get? 1).map
        (fun yp => yp.nominal) = some 112000 := by
  refine ⟨by decide, rfl, ?_⟩
  have h := singleType_nominal_growth envW portfolioW scenariosW settingsW Scenario.base
    "stocks" (by decide) rfl 1 (by decide)
  rw [h]
  norm_num [portfolioW, envW, settingsW]

/-- Witness for C3 at the concrete witness inputs. -/
theorem projection_length_and_year_zero_witness :
    (0 : ℤ) ≤ settingsW.horizonYears ∧
    (calculateScenarioProjection envW portfolioW scenariosW Scenario.base settingsW).length =
      settingsW.horizonYears.toNat + 1 :=
  ⟨by decide, (projection_length_and_year_zero envW portfolioW scenariosW settingsW
    Scenario.base (by decide)).1⟩

/- Guarded metrics and the registry-less liabilities fallback. -/

/-- C9: `calculateMetrics` yields `growthRate = 0` whenever the portfolio value
is non-positive or the horizon is non-positive, and `volatility = 0` whenever
the portfolio value is non-positive — the divisions are explicitly guarded. -/
theorem calculateMetrics_guarded_zero (p : Portfolio) (proj : Projections)
    (st : Settings) :
    ((p.totalValue ≤ 0 ∨ st.horizonYears ≤ 0) →
      (calculateMetrics p proj st).growthRate = 0) ∧
    (p.totalValue ≤ 0 → (calculateMetrics p proj st).volatility = 0) := by
  constructor
  · intro h
    simp only [calculateMetrics]
    rw [if_neg]
    rintro ⟨h1, h2⟩
    rcases h with h | h
    · linarith
    · omega
  · intro h
    simp only [calculateMetrics]
    rw [if_neg]
    exact fun h1 => absurd h (not_le.mpr h1)

/-- A portfolio whose cached total value is zero. -/
def portfolioZero : Portfolio := ⟨[], [], 0, 0, 0⟩

/-- Witness for C9: with `totalValue = 0` and a positive horizon the growth rate
is the guarded 0. -/
theorem calculateMetrics_guarded_zero_witness :
    (portfolioZero.totalValue ≤ 0 ∨ (⟨7, 6, false⟩ : Settings).horizonYears ≤ 0) ∧
    (calculateMetrics portfolioZero ⟨[], [], []⟩ ⟨7, 6, false⟩).growthRate = 0 :=
  ⟨Or.inl le_rfl,
    (calculateMetrics_guarded_zero portfolioZero ⟨[], [], []⟩ ⟨7, 6, false⟩).1
      (Or.inl le_rfl)⟩

lemma foldl_add_getD (ls : List Liability) :
    ∀ init : ℚ, ls.foldl (fun total l => total + l.currentBalance.getD 0) init =
      init + (ls.map (fun l => l.currentBalance.getD 0)).sum := by
  induction ls with
  | nil => intro init; simp
  | cons a as ih =>
    intro init
    simp only [List.foldl_cons, List.map_cons, List.sum_cons, ih]
    ring

/-- C10: when the `window.liabilityClasses` registry is unavailable,
`calculateLiabilitiesValue` returns the sum of the `currentBalance || 0` fields
for every elapsed time — no amortization, constant in `years` — and an empty or
missing liability list yields 0. -/
theorem calculateLiabilitiesValue_without_registry (env : Env)
    (h : env.liabilityClassesAvailable = false) :
    (∀ y : ℤ, calculateLiabilitiesValue env none y = 0) ∧
    (∀ (ls : List Liability) (y : ℤ),
      calculateLiabilitiesValue env (some ls) y =
        (ls.map (fun l => l.currentBalance.getD 0)).sum) := by
  refine ⟨fun y => rfl, fun ls y => ?_⟩
  simp only [calculateLiabilitiesValue]
  by_cases hls : ls.isEmpty
  · rw [if_pos hls]
    cases ls with
    | nil => simp
    | cons a as => simp at hls
  · rw [if_neg hls]
    have hstep : (fun (total : ℚ) (l : Liability) =>
        if env.liabilityClassesAvailable then total + calculateRemainingBalance l y
        else total + l.currentBalance.getD 0) =
        fun (total : ℚ) (l : Liability) => total + l.currentBalance.getD 0 := by
      funext total l
      rw [h]
      simp
    rw [hstep, foldl_add_getD, zero_add]

/-- An environment without the liability registry. -/
def envNoRegistry : Env := ⟨fun _ _ => 0, false⟩

/-- Witness for C10: a single liability with `currentBalance` 300 contributes
exactly 300 at year 3. -/
theorem calculateLiabilitiesValue_without_registry_witness :
    envNoRegistry.liabilityClassesAvailable = false ∧
    calculateLiabilitiesValue envNoRegistry (some [⟨"auto", 500, 10, 5, some 300⟩]) 3 = 300 := by
  refine ⟨rfl, ?_⟩
  rw [(calculateLiabilitiesValue_without_registry envNoRegistry rfl).2
    [⟨"auto", 500, 10, 5, some 300⟩] 3]
  norm_num
